import Mathlib

set_option maxRecDepth 2000

/-!
Shallow embedding of the kicad_coil_gen coil generators
(`gen_circ_coil.py`, `gen_ellipse_coil.py`, `gen_rect_coil.py`,
`gen_square_coil.py`, `gen_star_coil.py`) and of the footprint serializer
(`coil_to_footprint.py`).

Numeric parameters are modelled as rationals (every Python float is a
rational); sampled spiral coordinates that pass through `cos`/`sin` live in
the reals. Loops are modelled by structural recursion in source order, and
the JSON record each generator assembles is modelled by the `CoilDesign`
structure.
-/

/-- The point `(-p.x, p.y)`: the X-mirror used for the back layer. -/
def mirrorX {α : Type} [Neg α] (p : α × α) : α × α := (-p.1, p.2)

/-- The back-layer transform shared by all five generators:
`back_points = [{"x": -p["x"], "y": p["y"]} for p in reversed(points)]`. -/
def backPoints {α : Type} [Neg α] (pts : List (α × α)) : List (α × α) :=
  pts.reverse.map mirrorX

/-- Copper layer of a pad: `"f"` or `"b"` in the JSON. -/
inductive Layer : Type
  | front
  | back
deriving DecidableEq, Repr

/-- One pad entry of the generated JSON (`pads` list). -/
structure Pad (α : Type) : Type where
  pos : α × α
  width : ℚ
  height : ℚ
  layer : Layer
  clearance : ℚ

/-- The part of the generated JSON record the claims are about: track width
parameter, front and back track point lists, via positions and pads. -/
structure CoilDesign (α : Type) : Type where
  trackWidth : ℚ
  frontPts : List (α × α)
  backPts : List (α × α)
  vias : List (α × α)
  pads : List (Pad α)

/-- One design-rule violation tag; the generators append a formatted message
per failed check, modelled here by which check failed. -/
inductive DrcError : Type
  | viaClearance
  | sameNetSpacing
  | minTrackWidth
deriving DecidableEq, Repr

/-- DRC block of `gen_circ_coil.generate_coil_json` (constants
`via_hole_diameter = 0.3`, `via_hole_to_track = 0.2`,
`same_net_spacing = 0.15`, `min_track_width = 0.15`): the three checks in
source order. -/
def circDrcErrors (initialRadius spacing trackWidth : ℚ) : List DrcError :=
  (if initialRadius < 3/10 / 2 + 1/5 + trackWidth / 2 then [DrcError.viaClearance] else []) ++
    (if spacing - trackWidth < 3/20 then [DrcError.sameNetSpacing] else []) ++
      (if trackWidth < 3/20 then [DrcError.minTrackWidth] else [])

/-- DRC block of `gen_rect_coil.generate_coil_json`: the via check compares
the innermost open dimensions against `via_hole + 2*(hole_to_track + tw/2)`. -/
def rectDrcErrors (innerW innerH spacing trackWidth : ℚ) : List DrcError :=
  (if min innerW innerH < 3/10 + 2 * (1/5 + trackWidth / 2) then [DrcError.viaClearance] else []) ++
    (if spacing - trackWidth < 3/20 then [DrcError.sameNetSpacing] else []) ++
      (if trackWidth < 3/20 then [DrcError.minTrackWidth] else [])

/-- DRC block of `gen_square_coil.generate_coil_json`: the via check compares
the innermost open side against `via_hole + 2*(hole_to_track + tw/2)`. -/
def squareDrcErrors (innerSide spacing trackWidth : ℚ) : List DrcError :=
  (if innerSide < 3/10 + 2 * (1/5 + trackWidth / 2) then [DrcError.viaClearance] else []) ++
    (if spacing - trackWidth < 3/20 then [DrcError.sameNetSpacing] else []) ++
      (if trackWidth < 3/20 then [DrcError.minTrackWidth] else [])

/-- DRC block of `gen_ellipse_coil.generate_coil_json`: the via check uses
`min(initial_radius_x, initial_radius_y)`. -/
def ellipseDrcErrors (rx0 ry0 spacing trackWidth : ℚ) : List DrcError :=
  (if min rx0 ry0 < 3/10 / 2 + 1/5 + trackWidth / 2 then [DrcError.viaClearance] else []) ++
    (if spacing - trackWidth < 3/20 then [DrcError.sameNetSpacing] else []) ++
      (if trackWidth < 3/20 then [DrcError.minTrackWidth] else [])

/-- DRC block of `gen_star_coil.generate_star_coil_json` (same three checks
as the circular generator, against `initial_radius`). -/
def starDrcErrors (initialRadius spacing trackWidth : ℚ) : List DrcError :=
  (if initialRadius < 3/10 / 2 + 1/5 + trackWidth / 2 then [DrcError.viaClearance] else []) ++
    (if spacing - trackWidth < 3/20 then [DrcError.sameNetSpacing] else []) ++
      (if trackWidth < 3/20 then [DrcError.minTrackWidth] else [])

/-- The sample grid `np.linspace(0, stop, num)` with start 0: entry `i` is
`stop * i / (num - 1)`. -/
noncomputable def linspace (stop : ℝ) (num : ℕ) : List ℝ :=
  (List.range num).map (fun (i : ℕ) => stop * (i : ℝ) / ((num : ℝ) - 1))

/-- Spiral radius of the circular generator:
`radius = initial_radius + (spacing * theta / (2 * np.pi))`. -/
noncomputable def circRadius (initialRadius spacing : ℚ) (θ : ℝ) : ℝ :=
  (initialRadius : ℝ) + (spacing : ℝ) * θ / (2 * Real.pi)

/-- One sampled point of the circular spiral:
`(center_x + radius*cos θ, center_y + radius*sin θ)`. -/
noncomputable def circPoint (cx cy initialRadius spacing : ℚ) (θ : ℝ) : ℝ × ℝ :=
  ((cx : ℝ) + circRadius initialRadius spacing θ * Real.cos θ,
   (cy : ℝ) + circRadius initialRadius spacing θ * Real.sin θ)

/-- The circular spiral sample list: 5000 θ values on
`linspace(0, 2π·turns, 5000)` mapped through `circPoint`. -/
noncomputable def circSpiralPoints (cx cy initialRadius : ℚ) (turns : ℕ) (spacing : ℚ) :
    List (ℝ × ℝ) :=
  (linspace (2 * Real.pi * (turns : ℝ)) 5000).map (circPoint cx cy initialRadius spacing)

/-- Front track of the circular generator: the code runs
`points.insert(0, center)` after the spiral is sampled, so the center is the
first point. -/
noncomputable def circFrontPoints (cx cy initialRadius : ℚ) (turns : ℕ) (spacing : ℚ) :
    List (ℝ × ℝ) :=
  ((cx : ℝ), (cy : ℝ)) :: circSpiralPoints cx cy initialRadius turns spacing

/-- The full output of `gen_circ_coil.generate_coil_json`: the DRC report and
the assembled JSON record. The record itself never reads the report
(`json_data` is built from the geometry whether or not `errors` is empty);
`pad_front = points[-1]`, `pad_back = back_points[0]`, one via at the
center. -/
noncomputable def circGenerateCoilJson (cx cy initialRadius : ℚ) (turns : ℕ)
    (spacing trackWidth : ℚ) : List DrcError × CoilDesign ℝ :=
  let points := circFrontPoints cx cy initialRadius turns spacing
  let back := backPoints points
  (circDrcErrors initialRadius spacing trackWidth,
   { trackWidth := trackWidth
     frontPts := points
     backPts := back
     vias := [((cx : ℝ), (cy : ℝ))]
     pads :=
       [ { pos := points.getLast (by exact List.cons_ne_nil _ _), width := trackWidth,
           height := trackWidth, layer := Layer.front, clearance := 1/10 },
         { pos := back.head (by simp [back, points, backPoints, circFrontPoints]),
           width := trackWidth, height := trackWidth, layer := Layer.back,
           clearance := 1/10 } ] })

/-- The JSON record of the circular generator built with the DRC block
removed: used to state that violations do not change the produced record. -/
noncomputable def circDesignOnly (cx cy initialRadius : ℚ) (turns : ℕ)
    (spacing trackWidth : ℚ) : CoilDesign ℝ :=
  let points := circFrontPoints cx cy initialRadius turns spacing
  let back := backPoints points
  { trackWidth := trackWidth
    frontPts := points
    backPts := back
    vias := [((cx : ℝ), (cy : ℝ))]
    pads :=
      [ { pos := points.getLast (by exact List.cons_ne_nil _ _), width := trackWidth,
          height := trackWidth, layer := Layer.front, clearance := 1/10 },
        { pos := back.head (by simp [back, points, backPoints, circFrontPoints]),
          width := trackWidth, height := trackWidth, layer := Layer.back,
          clearance := 1/10 } ] }

/-- Python's `round` on an exact rational: nearest integer, ties to the even
integer (as `int(round(x))` behaves). -/
def pyRound (q : ℚ) : ℤ :=
  let f := Int.floor q
  let r := q - f
  if r < 1/2 then f
  else if 1/2 < r then f + 1
  else if f % 2 = 0 then f else f + 1

/-- One straight leg of the rectangular/square march: `n` times, append the
current position and step by `(dx, dy)`; returns the generated points and
the final position. -/
def walk (dx dy : ℚ) : ℕ → ℚ × ℚ → List (ℚ × ℚ) × (ℚ × ℚ)
  | 0, pos => ([], pos)
  | n + 1, pos =>
    let rest := walk dx dy n (pos.1 + dx, pos.2 + dy)
    (pos :: rest.1, rest.2)

/-- Loop state of `gen_rect_coil.generate_coil_json`: accumulated points,
current position and current rectangle dimensions. -/
structure RectState : Type where
  pts : List (ℚ × ℚ)
  x : ℚ
  y : ℚ
  w : ℚ
  h : ℚ

/-- One lap of the rectangular spiral: right `w_steps`, up `h_steps`, left
`w_steps`, down `h_steps - 1`, then one appended point and an inward step;
dimensions shrink by `2·spacing`. Step counts are `int(round(dim/spacing))`,
with empty legs when the count is not positive (Python `range` of a
non-positive number). -/
def rectLap (spacing : ℚ) (st : RectState) : RectState :=
  let wSteps := (pyRound (st.w / spacing)).toNat
  let hSteps := (pyRound (st.h / spacing)).toNat
  let right := walk spacing 0 wSteps (st.x, st.y)
  let up := walk 0 spacing hSteps right.2
  let left := walk (-spacing) 0 wSteps up.2
  let down := walk 0 (-spacing) (hSteps - 1) left.2
  { pts := st.pts ++ right.1 ++ up.1 ++ left.1 ++ down.1 ++ [down.2]
    x := down.2.1 + spacing
    y := down.2.2
    w := st.w - 2 * spacing
    h := st.h - 2 * spacing }

/-- The rectangular generator's `for turn in range(turns)` loop. -/
def rectLaps (spacing : ℚ) : ℕ → RectState → RectState
  | 0, st => st
  | n + 1, st => rectLaps spacing n (rectLap spacing st)

/-- Final loop state of the rectangular spiral from the initial parameters. -/
def rectSpiralState (startX startY initialWidth initialHeight : ℚ) (turns : ℕ)
    (spacing : ℚ) : RectState :=
  rectLaps spacing turns { pts := [], x := startX, y := startY, w := initialWidth, h := initialHeight }

/-- Front track of the rectangular generator: the spiral points with the
center `(start + size/2)` appended as the final point. -/
def rectFrontPoints (startX startY initialWidth initialHeight : ℚ) (turns : ℕ)
    (spacing : ℚ) : List (ℚ × ℚ) :=
  (rectSpiralState startX startY initialWidth initialHeight turns spacing).pts ++
    [(startX + initialWidth / 2, startY + initialHeight / 2)]

/-- The full output of `gen_rect_coil.generate_coil_json`: DRC report
(against the innermost open dimensions left in the loop state) and the
assembled record; `pad_front = points[0]`, `pad_back = back_points[-1]`. -/
def rectGenerateCoilJson (startX startY initialWidth initialHeight : ℚ) (turns : ℕ)
    (spacing trackWidth : ℚ) : List DrcError × CoilDesign ℚ :=
  let finalSt := rectSpiralState startX startY initialWidth initialHeight turns spacing
  let center : ℚ × ℚ := (startX + initialWidth / 2, startY + initialHeight / 2)
  let points := finalSt.pts ++ [center]
  let back := backPoints points
  (rectDrcErrors finalSt.w finalSt.h spacing trackWidth,
   { trackWidth := trackWidth
     frontPts := points
     backPts := back
     vias := [center]
     pads :=
       [ { pos := points.head (by simp [points]), width := trackWidth,
           height := trackWidth, layer := Layer.front, clearance := 1/10 },
         { pos := back.getLast (by simp [back, points, backPoints]),
           width := trackWidth, height := trackWidth, layer := Layer.back,
           clearance := 1/10 } ] })

/-- Loop state of `gen_square_coil.generate_coil_json`. -/
structure SquareState : Type where
  pts : List (ℚ × ℚ)
  x : ℚ
  y : ℚ
  side : ℚ

/-- One lap of the square spiral: same march as the rectangle with a single
step count `int(round(side/spacing))` for every leg. -/
def squareLap (spacing : ℚ) (st : SquareState) : SquareState :=
  let steps := (pyRound (st.side / spacing)).toNat
  let right := walk spacing 0 steps (st.x, st.y)
  let up := walk 0 spacing steps right.2
  let left := walk (-spacing) 0 steps up.2
  let down := walk 0 (-spacing) (steps - 1) left.2
  { pts := st.pts ++ right.1 ++ up.1 ++ left.1 ++ down.1 ++ [down.2]
    x := down.2.1 + spacing
    y := down.2.2
    side := st.side - 2 * spacing }

/-- The square generator's turn loop. -/
def squareLaps (spacing : ℚ) : ℕ → SquareState → SquareState
  | 0, st => st
  | n + 1, st => squareLaps spacing n (squareLap spacing st)

/-- Final loop state of the square spiral from the initial parameters. -/
def squareSpiralState (startX startY initialSide : ℚ) (turns : ℕ) (spacing : ℚ) :
    SquareState :=
  squareLaps spacing turns { pts := [], x := startX, y := startY, side := initialSide }

/-- Front track of the square generator: spiral points with the center
appended as the final point. -/
def squareFrontPoints (startX startY initialSide : ℚ) (turns : ℕ) (spacing : ℚ) :
    List (ℚ × ℚ) :=
  (squareSpiralState startX startY initialSide turns spacing).pts ++
    [(startX + initialSide / 2, startY + initialSide / 2)]

/-- The full output of `gen_square_coil.generate_coil_json`. -/
def squareGenerateCoilJson (startX startY initialSide : ℚ) (turns : ℕ)
    (spacing trackWidth : ℚ) : List DrcError × CoilDesign ℚ :=
  let finalSt := squareSpiralState startX startY initialSide turns spacing
  let center : ℚ × ℚ := (startX + initialSide / 2, startY + initialSide / 2)
  let points := finalSt.pts ++ [center]
  let back := backPoints points
  (squareDrcErrors finalSt.side spacing trackWidth,
   { trackWidth := trackWidth
     frontPts := points
     backPts := back
     vias := [center]
     pads :=
       [ { pos := points.head (by simp [points]), width := trackWidth,
           height := trackWidth, layer := Layer.front, clearance := 1/10 },
         { pos := back.getLast (by simp [back, points, backPoints]),
           width := trackWidth, height := trackWidth, layer := Layer.back,
           clearance := 1/10 } ] })

/-- Radius of star-spiral vertex `i`
(`gen_star_coil.generate_star_spiral_points`): tips (even `i`) at
`outer_r = initial_radius + spacing * (frac_turn + 1)` with
`frac_turn = i / (num_star_points * 2)`, valleys (odd `i`) at
`outer_r * inner_ratio`. -/
def starVertexRadius (initialRadius spacing : ℚ) (numStarPoints : ℕ)
    (innerRatio : ℚ) (i : ℕ) : ℚ :=
  let outer := initialRadius + spacing * ((i : ℚ) / ((numStarPoints : ℚ) * 2) + 1)
  if i % 2 = 0 then outer else outer * innerRatio

/-- Angle of star-spiral vertex `i`:
`i * pi / num_star_points + radians(18)`. -/
noncomputable def starVertexAngle (numStarPoints : ℕ) (i : ℕ) : ℝ :=
  (i : ℝ) * Real.pi / (numStarPoints : ℝ) + Real.pi / 10

/-- The star spiral: `turns * num_star_points * 2` vertices at the radii and
angles above around the center. -/
noncomputable def starSpiralPoints (cx cy initialRadius : ℚ) (turns : ℕ)
    (spacing : ℚ) (numStarPoints : ℕ) (innerRatio : ℚ) : List (ℝ × ℝ) :=
  (List.range (turns * (numStarPoints * 2))).map fun i =>
    ((cx : ℝ) +
       (starVertexRadius initialRadius spacing numStarPoints innerRatio i : ℝ) *
         Real.cos (starVertexAngle numStarPoints i),
     (cy : ℝ) +
       (starVertexRadius initialRadius spacing numStarPoints innerRatio i : ℝ) *
         Real.sin (starVertexAngle numStarPoints i))

/-- Front track of the star generator: `points.insert(0, center)` makes the
center the first point. -/
noncomputable def starFrontPoints (cx cy initialRadius : ℚ) (turns : ℕ)
    (spacing : ℚ) (numStarPoints : ℕ) (innerRatio : ℚ) : List (ℝ × ℝ) :=
  ((cx : ℝ), (cy : ℝ)) :: starSpiralPoints cx cy initialRadius turns spacing numStarPoints innerRatio

/-- The full output of `gen_star_coil.generate_star_coil_json`;
`num_star_points = points_per_turn // 2`, `pad_front = points[-1]`,
`pad_back = back_points[0]`, one via at the center. -/
noncomputable def starGenerateCoilJson (cx cy initialRadius : ℚ) (turns : ℕ)
    (spacing trackWidth : ℚ) (pointsPerTurn : ℕ) (innerRatio : ℚ) :
    List DrcError × CoilDesign ℝ :=
  let points := starFrontPoints cx cy initialRadius turns spacing (pointsPerTurn / 2) innerRatio
  let back := backPoints points
  (starDrcErrors initialRadius spacing trackWidth,
   { trackWidth := trackWidth
     frontPts := points
     backPts := back
     vias := [((cx : ℝ), (cy : ℝ))]
     pads :=
       [ { pos := points.getLast (by exact List.cons_ne_nil _ _), width := trackWidth,
           height := trackWidth, layer := Layer.front, clearance := 1/10 },
         { pos := back.head (by simp [back, points, backPoints, starFrontPoints]),
           width := trackWidth, height := trackWidth, layer := Layer.back,
           clearance := 1/10 } ] })

/-- The growing per-axis radius of the elliptical generator:
`r = initial_radius + (spacing * theta) / (2 * math.pi)` (used once with the
x radius, once with the y radius). -/
noncomputable def ellipseRadius (initialRadius spacing : ℚ) (θ : ℝ) : ℝ :=
  (initialRadius : ℝ) + (spacing : ℝ) * θ / (2 * Real.pi)

/-- One sampled point of the elliptical spiral; the y sine term is
subtracted (clockwise convention, unlike the circular generator). -/
noncomputable def ellipsePoint (cx cy rx0 ry0 spacing : ℚ) (θ : ℝ) : ℝ × ℝ :=
  ((cx : ℝ) + ellipseRadius rx0 spacing θ * Real.cos θ,
   (cy : ℝ) - ellipseRadius ry0 spacing θ * Real.sin θ)

/-- The elliptical spiral samples: `linspace(0, 2π·turns, 1000·turns)`. -/
noncomputable def ellipseSpiralPoints (cx cy rx0 ry0 : ℚ) (turns : ℕ) (spacing : ℚ) :
    List (ℝ × ℝ) :=
  (linspace (2 * Real.pi * (turns : ℝ)) (1000 * turns)).map (ellipsePoint cx cy rx0 ry0 spacing)

/-- Front track of the elliptical generator: `points.insert(0, center)`
makes the center the first point. -/
noncomputable def ellipseFrontPoints (cx cy rx0 ry0 : ℚ) (turns : ℕ) (spacing : ℚ) :
    List (ℝ × ℝ) :=
  ((cx : ℝ), (cy : ℝ)) :: ellipseSpiralPoints cx cy rx0 ry0 turns spacing

/-- The full output of `gen_ellipse_coil.generate_coil_json`;
`pad_front = points[-1]`, `pad_back = back_points[0]`. -/
noncomputable def ellipseGenerateCoilJson (cx cy rx0 ry0 : ℚ) (turns : ℕ)
    (spacing trackWidth : ℚ) : List DrcError × CoilDesign ℝ :=
  let points := ellipseFrontPoints cx cy rx0 ry0 turns spacing
  let back := backPoints points
  (ellipseDrcErrors rx0 ry0 spacing trackWidth,
   { trackWidth := trackWidth
     frontPts := points
     backPts := back
     vias := [((cx : ℝ), (cy : ℝ))]
     pads :=
       [ { pos := points.getLast (by exact List.cons_ne_nil _ _), width := trackWidth,
           height := trackWidth, layer := Layer.front, clearance := 1/10 },
         { pos := back.head (by simp [back, points, backPoints, ellipseFrontPoints]),
           width := trackWidth, height := trackWidth, layer := Layer.back,
           clearance := 1/10 } ] })

/-- The serializer's view of the `parameters` block; each field it reads may
be missing from the persisted JSON. -/
structure FpParams : Type where
  trackWidth : Option ℚ
  viaDiameter : Option ℚ
  viaDrillDiameter : Option ℚ

/-- One entry of a `tracks` list: `{"width": ..., "pts": [...]}`. -/
structure JsonTrack : Type where
  width : ℚ
  pts : List (ℚ × ℚ)

/-- One silkscreen text entry of the coil JSON. -/
structure JsonSilk : Type where
  content : String
  pos : ℚ × ℚ
  size : ℚ
  layer : Layer
  angle : ℚ

/-- One pad entry as the serializer reads it. -/
structure JsonPad : Type where
  pos : ℚ × ℚ
  width : ℚ
  height : ℚ
  layer : Layer

/-- A persisted coil JSON record as `generate_footprint_file` consumes it;
`Option` marks the structural keys whose absence raises a `KeyError`. -/
structure CoilJson : Type where
  parameters : Option FpParams
  tracksF : Option (List JsonTrack)
  tracksB : Option (List JsonTrack)
  tracksIn : Option (List (List JsonTrack))
  vias : List (ℚ × ℚ)
  pads : List JsonPad
  silk : List JsonSilk
  edgeCuts : List (List (ℚ × ℚ))

/-- Target layer of an emitted `fp_line`. -/
inductive CuLayer : Type
  | fCu
  | bCu
  | inCu (idx : ℕ)
  | edge
deriving DecidableEq, Repr

/-- One emitted line of the footprint file, keeping the geometric payload
and eliding the fixed text. -/
inductive FpElement : Type
  | header
  | textRef
  | textValue
  | lineSeg (layer : CuLayer) (width : ℚ) (a b : ℚ × ℚ)
  | viaPad (p : ℚ × ℚ) (size drill : ℚ)
  | smdPad (num : ℕ) (p : ℚ × ℚ) (w h : ℚ) (layer : Layer)
  | silkText (t : JsonSilk)
  | closing

/-- Consecutive-point segments of one polyline
(`for i in range(len(points) - 1)`); fewer than 2 points produce none. -/
def segmentsOf {α : Type} (pts : List α) : List (α × α) :=
  if 2 ≤ pts.length then pts.zip pts.tail else []

/-- Edge-cut emission (`coil_to_footprint.py` lines 108-122): consecutive
segments, then — whenever the polygon has more than 2 points — a closing
segment from `edge_cut[-1]` back to `edge_cut[0]`; the code does not test
whether those two points differ. -/
def edgeCutSegments (ec : List (ℚ × ℚ)) : List ((ℚ × ℚ) × (ℚ × ℚ)) :=
  if 2 ≤ ec.length then
    segmentsOf ec ++
      (if 2 < ec.length then
        match ec.getLast?, ec.head? with
        | some a, some b => [(a, b)]
        | _, _ => []
      else [])
  else []

/-- Segments of every track of one copper layer. -/
def trackLines (layer : CuLayer) (ts : List JsonTrack) : List FpElement :=
  (ts.map fun t => (segmentsOf t.pts).map fun s => FpElement.lineSeg layer t.width s.1 s.2).flatten

/-- Internal-layer tracks: entry `i` of `tracks["in"]` goes to internal
layer `i` when `i < 6`, else it is skipped. -/
def inLines (ins : List (List JsonTrack)) : List FpElement :=
  (ins.enum.map fun p => if p.1 < 6 then trackLines (CuLayer.inCu p.1) p.2 else []).flatten

/-- Non-plated through-hole pad per via. -/
def viaLines (viaDiameter viaDrill : ℚ) (vs : List (ℚ × ℚ)) : List FpElement :=
  vs.map fun v => FpElement.viaPad v viaDiameter viaDrill

/-- Surface-mount pads, numbered from 1 in list order. -/
def padLines (ps : List JsonPad) : List FpElement :=
  ps.enum.map fun p => FpElement.smdPad (p.1 + 1) p.2.pos p.2.width p.2.height p.2.layer

/-- Silkscreen text emission. -/
def silkLines (ss : List JsonSilk) : List FpElement :=
  ss.map FpElement.silkText

/-- Edge-cut lines (stroke width 0.1) over all edge cuts. -/
def edgeLines (ecs : List (List (ℚ × ℚ))) : List FpElement :=
  (ecs.map fun ec =>
    (edgeCutSegments ec).map fun s => FpElement.lineSeg CuLayer.edge (1/10) s.1 s.2).flatten

/-- The serializer `coil_to_footprint.generate_footprint_file` up to the
write: the required lookups (`parameters` with its `trackWidth`,
`viaDiameter`, `viaDrillDiameter`, then the `f`, `b`, `in` track keys)
happen while the line list is assembled in memory, so a missing key
surfaces as an error with no output produced. -/
def generateFootprintFile (d : CoilJson) : Except String (List FpElement) :=
  match d.parameters with
  | none => Except.error "KeyError: parameters"
  | some ps =>
    match ps.trackWidth with
    | none => Except.error "KeyError: trackWidth"
    | some _tw =>
      match ps.viaDiameter with
      | none => Except.error "KeyError: viaDiameter"
      | some viaD =>
        match ps.viaDrillDiameter with
        | none => Except.error "KeyError: viaDrillDiameter"
        | some viaDrill =>
          match d.tracksF with
          | none => Except.error "KeyError: f"
          | some fTracks =>
            match d.tracksB with
            | none => Except.error "KeyError: b"
            | some bTracks =>
              match d.tracksIn with
              | none => Except.error "KeyError: in"
              | some inTracks =>
                Except.ok
                  ([FpElement.header, FpElement.textRef, FpElement.textValue] ++
                    trackLines CuLayer.fCu fTracks ++
                    trackLines CuLayer.bCu bTracks ++
                    inLines inTracks ++
                    viaLines viaD viaDrill d.vias ++
                    padLines d.pads ++
                    silkLines d.silk ++
                    edgeLines d.edgeCuts ++
                    [FpElement.closing])

/-- The file-writing step: `open(output_path, "w")` runs only after the
whole line list is assembled, so on a lookup error no file content exists
at all. -/
def writeFootprint (d : CoilJson) : Option (List FpElement) :=
  (generateFootprintFile d).toOption

/-- Euclidean distance between two planar points. -/
noncomputable def ptDist (p q : ℝ × ℝ) : ℝ :=
  Real.sqrt ((p.1 - q.1) ^ 2 + (p.2 - q.2) ^ 2)

/-- Point count one rectangular lap contributes:
`w_steps + h_steps + w_steps + (h_steps - 1) + 1` with the step counts of
that lap (natural subtraction, matching the empty `range` of the code when
`h_steps = 0`). -/
def rectLapCount (w h spacing : ℚ) : ℕ :=
  let ws := (pyRound (w / spacing)).toNat
  let hs := (pyRound (h / spacing)).toNat
  ws + hs + ws + (hs - 1) + 1

/-- Sum of per-lap step counts over the rectangular generator's laps, the
dimensions shrinking by `2·spacing` per lap. -/
def rectLapSum (spacing : ℚ) : ℕ → ℚ → ℚ → ℕ
  | 0, _, _ => 0
  | n + 1, w, h =>
    rectLapCount w h spacing + rectLapSum spacing n (w - 2 * spacing) (h - 2 * spacing)

theorem backPoints_length {α : Type} [Neg α] (l : List (α × α)) :
    (backPoints l).length = l.length := by
  simp [backPoints]

theorem backPoints_eq_reverse_map {α : Type} [Neg α] (l : List (α × α)) :
    backPoints l = (l.map mirrorX).reverse := by
  simp [backPoints, List.map_reverse]

theorem backPoints_head? {α : Type} [Neg α] (l : List (α × α)) :
    (backPoints l).head? = l.getLast?.map mirrorX := by
  simp [backPoints, List.head?_reverse]

theorem backPoints_getLast? {α : Type} [Neg α] (l : List (α × α)) :
    (backPoints l).getLast? = l.head?.map mirrorX := by
  simp [backPoints, List.getLast?_reverse]

theorem walk_length (dx dy : ℚ) (n : ℕ) : ∀ pos : ℚ × ℚ, (walk dx dy n pos).1.length = n := by
  induction n with
  | zero => intro pos; rfl
  | succ n ih => intro pos; simp [walk, ih]

theorem rectLap_pts_length (spacing : ℚ) (st : RectState) :
    (rectLap spacing st).pts.length = st.pts.length + rectLapCount st.w st.h spacing := by
  simp [rectLap, rectLapCount, walk_length, List.length_append]
  omega

theorem rectLap_w (spacing : ℚ) (st : RectState) :
    (rectLap spacing st).w = st.w - 2 * spacing := rfl

theorem rectLap_h (spacing : ℚ) (st : RectState) :
    (rectLap spacing st).h = st.h - 2 * spacing := rfl

theorem rectLaps_pts_length (spacing : ℚ) (n : ℕ) : ∀ st : RectState,
    (rectLaps spacing n st).pts.length = st.pts.length + rectLapSum spacing n st.w st.h := by
  induction n with
  | zero => intro st; simp [rectLaps, rectLapSum]
  | succ n ih =>
    intro st
    rw [rectLaps, ih, rectLap_pts_length, rectLap_w, rectLap_h, rectLapSum]
    omega

theorem ptDist_polar (cx cy r θ : ℝ) :
    ptDist (cx + r * Real.cos θ, cy + r * Real.sin θ) (cx, cy) = |r| := by
  have h : (cx + r * Real.cos θ - cx) ^ 2 + (cy + r * Real.sin θ - cy) ^ 2 = r ^ 2 := by
    linear_combination (r ^ 2) * Real.sin_sq_add_cos_sq θ
  simp only [ptDist]
  rw [h, Real.sqrt_sq_eq_abs]

theorem circSpiralPoints_length (cx cy r0 : ℚ) (turns : ℕ) (spacing : ℚ) :
    (circSpiralPoints cx cy r0 turns spacing).length = 5000 := by
  rw [circSpiralPoints, linspace, List.length_map, List.length_map, List.length_range]

theorem circFrontPoints_getLast (cx cy r0 : ℚ) (turns : ℕ) (spacing : ℚ) :
    (circFrontPoints cx cy r0 turns spacing).getLast? =
      some (circPoint cx cy r0 spacing (2 * Real.pi * (turns : ℝ))) := by
  rw [circFrontPoints, circSpiralPoints, linspace, List.map_map,
    show (5000 : ℕ) = 4999 + 1 from rfl, List.range_succ, List.map_append,
    ← List.cons_append]
  simp only [List.map_cons, List.map_nil]
  rw [List.getLast?_concat]
  simp only [Function.comp_apply]
  congr 1
  have hθ : 2 * Real.pi * (turns : ℝ) * ((4999 : ℕ) : ℝ) / (((4999 + 1 : ℕ) : ℝ) - 1) =
      2 * Real.pi * (turns : ℝ) := by
    norm_num
  rw [hθ]

theorem circSpiralPoints_get (cx cy r0 : ℚ) (turns : ℕ) (spacing : ℚ) (i : ℕ)
    (h : i < (circSpiralPoints cx cy r0 turns spacing).length) :
    (circSpiralPoints cx cy r0 turns spacing).get ⟨i, h⟩ =
      circPoint cx cy r0 spacing (2 * Real.pi * (turns : ℝ) * (i : ℝ) / ((5000 : ℝ) - 1)) := by
  rw [List.get_eq_getElem]
  simp only [circSpiralPoints, linspace, List.map_map, List.getElem_map, List.getElem_range,
    Function.comp_apply]
  norm_num

theorem backPoints_head_eq {α : Type} [Neg α] (l : List (α × α)) (h1 : l ≠ [])
    (h2 : backPoints l ≠ []) :
    (backPoints l).head h2 = mirrorX (l.getLast h1) := by
  have h := backPoints_head? l
  rw [List.head?_eq_head h2, List.getLast?_eq_getLast l h1] at h
  simp only [Option.map_some'] at h
  exact Option.some.inj h

theorem backPoints_getLast_eq {α : Type} [Neg α] (l : List (α × α)) (h1 : l ≠ [])
    (h2 : backPoints l ≠ []) :
    (backPoints l).getLast h2 = mirrorX (l.head h1) := by
  have h := backPoints_getLast? l
  rw [List.getLast?_eq_getLast _ h2, List.head?_eq_head h1] at h
  simp only [Option.map_some'] at h
  exact Option.some.inj h

set_option maxRecDepth 8000 in
/-- C1: the back-layer path is the X-mirrored, order-reversed front path:
`backPoints l = reverse (map (fun p => (-p.x, p.y)) l)`, with the pointwise
form `back[i].x = -front[N-1-i].x` and `back[i].y = front[N-1-i].y` for
every index `i < N`; and every one of the five generators stores exactly
`backPoints` of its front track as its back track. -/
theorem back_track_is_mirrored_reversed_front {α : Type} [Neg α] (l : List (α × α))
    (i : ℕ) (h : i < l.length) :
    backPoints l = (l.map (fun p => (-p.1, p.2))).reverse ∧
    ((backPoints l).get ⟨i, by rw [backPoints_length]; exact h⟩).1 =
      -((l.get ⟨l.length - 1 - i, by omega⟩).1) ∧
    ((backPoints l).get ⟨i, by rw [backPoints_length]; exact h⟩).2 =
      (l.get ⟨l.length - 1 - i, by omega⟩).2 ∧
    (∀ cx cy r0 t s tw, ((circGenerateCoilJson cx cy r0 t s tw).2).backPts =
      backPoints ((circGenerateCoilJson cx cy r0 t s tw).2).frontPts) ∧
    (∀ sx sy w0 h0 t s tw, ((rectGenerateCoilJson sx sy w0 h0 t s tw).2).backPts =
      backPoints ((rectGenerateCoilJson sx sy w0 h0 t s tw).2).frontPts) ∧
    (∀ sx sy side t s tw, ((squareGenerateCoilJson sx sy side t s tw).2).backPts =
      backPoints ((squareGenerateCoilJson sx sy side t s tw).2).frontPts) ∧
    (∀ cx cy r0 t s tw ppt ir, ((starGenerateCoilJson cx cy r0 t s tw ppt ir).2).backPts =
      backPoints ((starGenerateCoilJson cx cy r0 t s tw ppt ir).2).frontPts) ∧
    (∀ cx cy rx0 ry0 t s tw, ((ellipseGenerateCoilJson cx cy rx0 ry0 t s tw).2).backPts =
      backPoints ((ellipseGenerateCoilJson cx cy rx0 ry0 t s tw).2).frontPts) := by
  refine ⟨backPoints_eq_reverse_map l, ?_, ?_, ?_, ?_, ?_, ?_, ?_⟩
  · rw [List.get_eq_getElem, List.get_eq_getElem]
    simp only [backPoints, List.getElem_map, List.getElem_reverse, mirrorX]
  · rw [List.get_eq_getElem, List.get_eq_getElem]
    simp only [backPoints, List.getElem_map, List.getElem_reverse, mirrorX]
  · intro cx cy r0 t s tw
    simp only [circGenerateCoilJson]
  · intro sx sy w0 h0 t s tw
    simp only [rectGenerateCoilJson]
  · intro sx sy side t s tw
    simp only [squareGenerateCoilJson]
  · intro cx cy r0 t s tw ppt ir
    simp only [starGenerateCoilJson]
  · intro cx cy rx0 ry0 t s tw
    simp only [ellipseGenerateCoilJson]

/-- Witness for C1 at the concrete front path [(1,2),(3,4)] and index 0. -/
theorem back_track_is_mirrored_reversed_front_witness :
    0 < ([((1 : ℚ), (2 : ℚ)), ((3 : ℚ), (4 : ℚ))] : List (ℚ × ℚ)).length ∧
    backPoints ([((1 : ℚ), (2 : ℚ)), ((3 : ℚ), (4 : ℚ))] : List (ℚ × ℚ)) =
      (([((1 : ℚ), (2 : ℚ)), ((3 : ℚ), (4 : ℚ))] : List (ℚ × ℚ)).map
        (fun p => (-p.1, p.2))).reverse :=
  ⟨by decide,
    (back_track_is_mirrored_reversed_front [((1 : ℚ), (2 : ℚ)), ((3 : ℚ), (4 : ℚ))] 0
      (by decide)).1⟩

/-- C2 (amended): the rectangular and square generators append the design's
electrical center (the via position) as the front path's final point; the
circular, elliptical and star generators instead prepend the center, so in
their front tracks the via point is the first point and the path runs from
the via outward to the outer pad. -/
theorem front_track_center_endpoint :
    (∀ sx sy w0 h0 : ℚ, ∀ t : ℕ, ∀ s tw : ℚ,
      ((rectGenerateCoilJson sx sy w0 h0 t s tw).2).frontPts.getLast? =
        some (sx + w0 / 2, sy + h0 / 2)) ∧
    (∀ sx sy side : ℚ, ∀ t : ℕ, ∀ s tw : ℚ,
      ((squareGenerateCoilJson sx sy side t s tw).2).frontPts.getLast? =
        some (sx + side / 2, sy + side / 2)) ∧
    (∀ cx cy r0 : ℚ, ∀ t : ℕ, ∀ s tw : ℚ,
      ((circGenerateCoilJson cx cy r0 t s tw).2).frontPts.head? =
        some ((cx : ℝ), (cy : ℝ))) ∧
    (∀ cx cy rx0 ry0 : ℚ, ∀ t : ℕ, ∀ s tw : ℚ,
      ((ellipseGenerateCoilJson cx cy rx0 ry0 t s tw).2).frontPts.head? =
        some ((cx : ℝ), (cy : ℝ))) ∧
    (∀ cx cy r0 : ℚ, ∀ t : ℕ, ∀ s tw : ℚ, ∀ ppt : ℕ, ∀ ir : ℚ,
      ((starGenerateCoilJson cx cy r0 t s tw ppt ir).2).frontPts.head? =
        some ((cx : ℝ), (cy : ℝ))) := by
  refine ⟨?_, ?_, ?_, ?_, ?_⟩
  · intro sx sy w0 h0 t s tw
    simp only [rectGenerateCoilJson]
    rw [List.getLast?_concat]
  · intro sx sy side t s tw
    simp only [squareGenerateCoilJson]
    rw [List.getLast?_concat]
  · intro cx cy r0 t s tw
    simp only [circGenerateCoilJson, circFrontPoints, List.head?_cons]
  · intro cx cy rx0 ry0 t s tw
    simp only [ellipseGenerateCoilJson, ellipseFrontPoints, List.head?_cons]
  · intro cx cy r0 t s tw ppt ir
    simp only [starGenerateCoilJson, starFrontPoints, List.head?_cons]

/-- C2 counterexample: for the circular generator with center (0,0),
initial radius 1/2, 4 turns, spacing 3/10, the front path's final point is
(17/10, 0), the outer end of the spiral, not the center: the center is
prepended, not appended. -/
theorem circ_front_last_point_not_center :
    ((circGenerateCoilJson 0 0 (1/2) 4 (3/10) (3/20)).2).frontPts.getLast? ≠
      some (((0 : ℚ) : ℝ), ((0 : ℚ) : ℝ)) := by
  have hf : ((circGenerateCoilJson 0 0 (1/2) 4 (3/10) (3/20)).2).frontPts =
      circFrontPoints 0 0 (1/2) 4 (3/10) := by
    simp only [circGenerateCoilJson]
  rw [hf, circFrontPoints_getLast]
  intro hc
  have h := Option.some.inj hc
  have hcos : Real.cos (2 * Real.pi * ((4 : ℕ) : ℝ)) = 1 := by
    rw [show (2 * Real.pi * ((4 : ℕ) : ℝ)) = ((4 : ℕ) : ℝ) * (2 * Real.pi) by ring,
      Real.cos_nat_mul_two_pi]
  have hrad : circRadius (1/2) (3/10) (2 * Real.pi * ((4 : ℕ) : ℝ)) = 17/10 := by
    rw [circRadius]
    have hπ : (2 : ℝ) * Real.pi ≠ 0 := mul_ne_zero two_ne_zero Real.pi_ne_zero
    push_cast
    field_simp
    ring
  have h1 := congrArg Prod.fst h
  rw [circPoint] at h1
  dsimp only at h1
  rw [hcos, hrad] at h1
  norm_num at h1

/-- C3 (amended): the circular generator's front path always has exactly
5001 points — the 5000 spiral samples plus the prepended center — and the
rectangular generator's front path length equals the sum over laps of
`w_steps + h_steps + w_steps + (h_steps - 1) + 1` (the down-leg count
truncated at zero, as the code's empty `range`) plus 1 for the appended
center point. -/
theorem front_track_length_formulas :
    (∀ cx cy r0 : ℚ, ∀ t : ℕ, ∀ s tw : ℚ,
      ((circGenerateCoilJson cx cy r0 t s tw).2).frontPts.length = 5001) ∧
    (∀ sx sy w0 h0 : ℚ, ∀ t : ℕ, ∀ s tw : ℚ,
      ((rectGenerateCoilJson sx sy w0 h0 t s tw).2).frontPts.length =
        rectLapSum s t w0 h0 + 1) := by
  constructor
  · intro cx cy r0 t s tw
    simp only [circGenerateCoilJson, circFrontPoints, List.length_cons]
    rw [circSpiralPoints_length]
  · intro sx sy w0 h0 t s tw
    simp only [rectGenerateCoilJson, rectSpiralState]
    rw [List.length_append, rectLaps_pts_length]
    simp

/-- C3 counterexample: at concrete parameters the circular front track has
5001 points, not 5000. -/
theorem circ_front_length_not_5000 :
    ((circGenerateCoilJson 0 0 (1/2) 4 (3/10) (3/20)).2).frontPts.length ≠ 5000 := by
  have h : ((circGenerateCoilJson 0 0 (1/2) 4 (3/10) (3/20)).2).frontPts.length = 5001 := by
    simp only [circGenerateCoilJson, circFrontPoints, List.length_cons]
    rw [circSpiralPoints_length]
  omega

/-- C4: the same-net spacing check is strict: a spacing violation is
reported iff `spacing - trackWidth < 0.15`; in particular a gap of exactly
0.15 produces no spacing violation and a gap of 0.1499 produces one. -/
theorem same_net_spacing_strict :
    (∀ r0 s tw : ℚ, DrcError.sameNetSpacing ∈ circDrcErrors r0 s tw ↔ s - tw < 3/20) ∧
    (∀ side s tw : ℚ,
      DrcError.sameNetSpacing ∈ squareDrcErrors side s tw ↔ s - tw < 3/20) ∧
    (∀ r0 tw : ℚ, DrcError.sameNetSpacing ∉ circDrcErrors r0 (tw + 3/20) tw) ∧
    (∀ r0 tw : ℚ, DrcError.sameNetSpacing ∈ circDrcErrors r0 (tw + 1499/10000) tw) := by
  refine ⟨?_, ?_, ?_, ?_⟩
  · intro r0 s tw
    simp only [circDrcErrors, List.mem_append]
    split_ifs <;> simp_all
  · intro side s tw
    simp only [squareDrcErrors, List.mem_append]
    split_ifs <;> simp_all
  · intro r0 tw
    have he : tw + 3/20 - tw = 3/20 := by ring
    simp only [circDrcErrors, List.mem_append, he]
    split_ifs <;> simp_all
  · intro r0 tw
    have he : tw + 1499/10000 - tw = 1499/10000 := by ring
    have hlt : (1499/10000 : ℚ) < 3/20 := by norm_num
    simp only [circDrcErrors, List.mem_append, he]
    split_ifs <;> simp_all

/-- C5 counterexample: at center (0,0), initial radius 1/2, 4 turns,
spacing 3/10, track width 3/20, the circular generator reports zero DRC
violations (the required minimum inner radius is 0.425 mm, below the 0.5 mm
given), not exactly one, and the front track has 5001 points, not 5000. -/
theorem circ_scenario_zero_violations :
    (circGenerateCoilJson 0 0 (1/2) 4 (3/10) (3/20)).1.length = 0 ∧
    ((circGenerateCoilJson 0 0 (1/2) 4 (3/10) (3/20)).2).frontPts.length = 5001 := by
  constructor
  · have h : (circGenerateCoilJson 0 0 (1/2) 4 (3/10) (3/20)).1 =
        circDrcErrors (1/2) (3/10) (3/20) := by simp only [circGenerateCoilJson]
    rw [h, circDrcErrors, if_neg (by norm_num), if_neg (by norm_num), if_neg (by norm_num)]
    rfl
  · simp only [circGenerateCoilJson, circFrontPoints, List.length_cons]
    rw [circSpiralPoints_length]

/-- C5 (amended): the end-to-end circular scenario with center (0,0),
initial radius 1/2, 4 turns, spacing 3/10, track width 3/20 passes all
three DRC checks (no violation is reported; the required minimum inner
radius is 0.425 mm against the 0.5 mm given) and produces a non-empty
5001-point front track plus one via at the origin. -/
theorem circ_scenario_end_to_end :
    (circGenerateCoilJson 0 0 (1/2) 4 (3/10) (3/20)).1 = [] ∧
    ((circGenerateCoilJson 0 0 (1/2) 4 (3/10) (3/20)).2).frontPts.length = 5001 ∧
    ((circGenerateCoilJson 0 0 (1/2) 4 (3/10) (3/20)).2).frontPts ≠ [] ∧
    ((circGenerateCoilJson 0 0 (1/2) 4 (3/10) (3/20)).2).vias =
      [(((0 : ℚ) : ℝ), ((0 : ℚ) : ℝ))] := by
  refine ⟨?_, ?_, ?_, ?_⟩
  · have h : (circGenerateCoilJson 0 0 (1/2) 4 (3/10) (3/20)).1 =
        circDrcErrors (1/2) (3/10) (3/20) := by simp only [circGenerateCoilJson]
    rw [h, circDrcErrors, if_neg (by norm_num), if_neg (by norm_num), if_neg (by norm_num)]
    rfl
  · simp only [circGenerateCoilJson, circFrontPoints, List.length_cons]
    rw [circSpiralPoints_length]
  · simp only [circGenerateCoilJson, circFrontPoints]
    simp
  · simp only [circGenerateCoilJson]

/-- C6 (amended): along the circular generator's spiral sample sequence the
distance from the center is non-decreasing (for nonnegative initial radius
and spacing), and the elliptical generator's per-axis extent
`r = r0 + spacing·θ/(2π)` is non-decreasing in the sample angle for
nonnegative spacing; the star (and rectangular/square) point sequences are
not distance-monotone — the star's valley vertices sit closer to the center
than the preceding tip. -/
theorem circ_distance_monotone (cx cy r0 : ℚ) (turns : ℕ) (spacing : ℚ) (i j : ℕ)
    (h0r : 0 ≤ r0) (h0s : 0 ≤ spacing) (hij : i ≤ j) (hj : j < 5000) :
    ptDist ((circSpiralPoints cx cy r0 turns spacing).get
        ⟨i, by rw [circSpiralPoints_length]; omega⟩) ((cx : ℝ), (cy : ℝ)) ≤
      ptDist ((circSpiralPoints cx cy r0 turns spacing).get
        ⟨j, by rw [circSpiralPoints_length]; omega⟩) ((cx : ℝ), (cy : ℝ)) ∧
    (∀ rr0 ss : ℚ, ∀ θa θb : ℝ, 0 ≤ ss → θa ≤ θb →
      ellipseRadius rr0 ss θa ≤ ellipseRadius rr0 ss θb) := by
  constructor
  · rw [circSpiralPoints_get, circSpiralPoints_get, circPoint, circPoint,
      ptDist_polar, ptDist_polar]
    have hr0 : (0 : ℝ) ≤ (r0 : ℝ) := by exact_mod_cast h0r
    have hs0 : (0 : ℝ) ≤ (spacing : ℝ) := by exact_mod_cast h0s
    have hnn : ∀ k : ℕ, 0 ≤ circRadius r0 spacing
        (2 * Real.pi * (turns : ℝ) * (k : ℝ) / ((5000 : ℝ) - 1)) := by
      intro k
      rw [circRadius]
      have hθ : (0 : ℝ) ≤ 2 * Real.pi * (turns : ℝ) * (k : ℝ) / ((5000 : ℝ) - 1) := by
        positivity
      have h2π : (0 : ℝ) < 2 * Real.pi := by positivity
      exact add_nonneg hr0 (div_nonneg (mul_nonneg hs0 hθ) (le_of_lt h2π))
    rw [abs_of_nonneg (hnn i), abs_of_nonneg (hnn j)]
    rw [circRadius, circRadius]
    have hcast : (i : ℝ) ≤ (j : ℝ) := by exact_mod_cast hij
    gcongr
  · intro rr0 ss θa θb hss hle
    rw [ellipseRadius, ellipseRadius]
    have hss2 : (0 : ℝ) ≤ (ss : ℝ) := by exact_mod_cast hss
    gcongr

/-- Witness for the amended C6 at the circular coil (0,0), r0 = 1/2,
4 turns, spacing 3/10, indices 0 ≤ 1. -/
theorem circ_distance_monotone_witness :
    (0 : ℚ) ≤ 1/2 ∧ (0 : ℚ) ≤ 3/10 ∧ (0 : ℕ) ≤ 1 ∧ (1 : ℕ) < 5000 ∧
    (ptDist ((circSpiralPoints 0 0 (1/2) 4 (3/10)).get
        ⟨0, by rw [circSpiralPoints_length]; omega⟩) (((0 : ℚ) : ℝ), ((0 : ℚ) : ℝ)) ≤
      ptDist ((circSpiralPoints 0 0 (1/2) 4 (3/10)).get
        ⟨1, by rw [circSpiralPoints_length]; omega⟩) (((0 : ℚ) : ℝ), ((0 : ℚ) : ℝ)) ∧
    (∀ rr0 ss : ℚ, ∀ θa θb : ℝ, 0 ≤ ss → θa ≤ θb →
      ellipseRadius rr0 ss θa ≤ ellipseRadius rr0 ss θb)) :=
  ⟨by norm_num, by norm_num, by norm_num, by norm_num,
    circ_distance_monotone 0 0 (1/2) 4 (3/10) 0 1 (by norm_num) (by norm_num) (by norm_num)
      (by norm_num)⟩

/-- C6 counterexample: in the star spiral with center (0,0), initial radius
1/2, 1 turn, spacing 3/5, 5 star points, inner ratio 3/5, the second vertex
(a valley, distance 87/125) lies strictly closer to the center than the
first vertex (a tip, distance 11/10): the distance sequence decreases. -/
theorem star_distance_not_monotone :
    ptDist ((starSpiralPoints 0 0 (1/2) 1 (3/5) 5 (3/5)).get
        ⟨1, by norm_num [starSpiralPoints]⟩) (((0 : ℚ) : ℝ), ((0 : ℚ) : ℝ)) <
      ptDist ((starSpiralPoints 0 0 (1/2) 1 (3/5) 5 (3/5)).get
        ⟨0, by norm_num [starSpiralPoints]⟩) (((0 : ℚ) : ℝ), ((0 : ℚ) : ℝ)) := by
  have hget : ∀ (k : ℕ) (h : k < (starSpiralPoints 0 0 (1/2) 1 (3/5) 5 (3/5)).length),
      (starSpiralPoints 0 0 (1/2) 1 (3/5) 5 (3/5)).get ⟨k, h⟩ =
        (((0 : ℚ) : ℝ) + (starVertexRadius (1/2) (3/5) 5 (3/5) k : ℝ) *
            Real.cos (starVertexAngle 5 k),
         ((0 : ℚ) : ℝ) + (starVertexRadius (1/2) (3/5) 5 (3/5) k : ℝ) *
            Real.sin (starVertexAngle 5 k)) := by
    intro k h
    rw [List.get_eq_getElem]
    simp only [starSpiralPoints, List.getElem_map, List.getElem_range]
  rw [hget, hget, ptDist_polar, ptDist_polar]
  have h1 : starVertexRadius (1/2) (3/5) 5 (3/5) 1 = 87/125 := by
    norm_num [starVertexRadius]
  have h0 : starVertexRadius (1/2) (3/5) 5 (3/5) 0 = 11/10 := by
    norm_num [starVertexRadius]
  rw [h1, h0]
  push_cast
  rw [abs_of_nonneg (by norm_num), abs_of_nonneg (by norm_num)]
  norm_num

/-- C7: evaluation at the failing input [(0,0),(1,0),(0,0)] — a 3-point
edge cut whose first and last points already coincide: the serializer still
appends a closing segment, producing a third, degenerate segment
((0,0),(0,0)), although the code's own comment closes the polygon only when
it is not already closed; an edge cut with fewer than 2 points still
produces no segments. -/
theorem edge_cut_closing_appended_even_when_closed :
    edgeCutSegments [((0 : ℚ), (0 : ℚ)), (1, 0), (0, 0)] =
      [(((0 : ℚ), (0 : ℚ)), ((1 : ℚ), (0 : ℚ))), ((1, 0), (0, 0)), ((0, 0), (0, 0))] ∧
    (∀ p : ℚ × ℚ, edgeCutSegments [p] = []) ∧ edgeCutSegments [] = [] := by
  refine ⟨by decide, fun p => ?_, rfl⟩
  simp [edgeCutSegments]

/-- C8: DRC violations are non-fatal and never shape the output: for every
parameter set the circular generator returns the full violation report next
to a record identical to the one assembled with the DRC block removed
(`circDesignOnly`), and that record always holds a nonempty front track,
two pads and one via. -/
theorem drc_violations_nonfatal :
    ∀ cx cy r0 : ℚ, ∀ t : ℕ, ∀ s tw : ℚ,
      (circGenerateCoilJson cx cy r0 t s tw).2 = circDesignOnly cx cy r0 t s tw ∧
      (circGenerateCoilJson cx cy r0 t s tw).1 = circDrcErrors r0 s tw ∧
      ((circGenerateCoilJson cx cy r0 t s tw).2).frontPts ≠ [] ∧
      ((circGenerateCoilJson cx cy r0 t s tw).2).pads.length = 2 ∧
      ((circGenerateCoilJson cx cy r0 t s tw).2).vias.length = 1 := by
  intro cx cy r0 t s tw
  refine ⟨?_, ?_, ?_, ?_, ?_⟩
  · simp only [circGenerateCoilJson, circDesignOnly]
  · simp only [circGenerateCoilJson]
  · simp only [circGenerateCoilJson, circFrontPoints]
    simp
  · simp only [circGenerateCoilJson, List.length_cons, List.length_nil]
  · simp only [circGenerateCoilJson, List.length_cons, List.length_nil]

/-- C9: serializing a record that misses a required structural field — the
parameters block or any of its trackWidth/viaDiameter/viaDrillDiameter
entries, or one of the f/b/in track keys — fails with an error surfaced to
the caller, and because every output line is assembled before the output
file is opened, no footprint content is written at all. -/
theorem missing_structural_field_fails (d : CoilJson)
    (h : d.parameters = none ∨
      (∃ ps, d.parameters = some ps ∧
        (ps.trackWidth = none ∨ ps.viaDiameter = none ∨ ps.viaDrillDiameter = none)) ∨
      d.tracksF = none ∨ d.tracksB = none ∨ d.tracksIn = none) :
    (∃ msg, generateFootprintFile d = Except.error msg) ∧ writeFootprint d = none := by
  obtain ⟨params, tf, tb, ti, vs, ps, sk, ecs⟩ := d
  cases params with
  | none => exact ⟨⟨_, rfl⟩, rfl⟩
  | some pr =>
    obtain ⟨tw, vd, vdd⟩ := pr
    cases tw with
    | none => exact ⟨⟨_, rfl⟩, rfl⟩
    | some tw0 =>
      cases vd with
      | none => exact ⟨⟨_, rfl⟩, rfl⟩
      | some vd0 =>
        cases vdd with
        | none => exact ⟨⟨_, rfl⟩, rfl⟩
        | some vdd0 =>
          cases tf with
          | none => exact ⟨⟨_, rfl⟩, rfl⟩
          | some tf0 =>
            cases tb with
            | none => exact ⟨⟨_, rfl⟩, rfl⟩
            | some tb0 =>
              cases ti with
              | none => exact ⟨⟨_, rfl⟩, rfl⟩
              | some ti0 =>
                rcases h with h | ⟨ps1, hps, h⟩ | h | h | h
                · exact Option.noConfusion h
                · have hsub : FpParams.mk (some tw0) (some vd0) (some vdd0) = ps1 :=
                    Option.some.inj hps
                  subst hsub
                  rcases h with h | h | h <;> exact Option.noConfusion h
                · exact Option.noConfusion h
                · exact Option.noConfusion h
                · exact Option.noConfusion h

/-- Witness for C9: the record with no parameters block and no track keys
errors out and writes nothing. -/
theorem missing_structural_field_fails_witness :
    ({ parameters := none, tracksF := none, tracksB := none, tracksIn := none,
        vias := [], pads := [], silk := [], edgeCuts := [] } : CoilJson).parameters = none ∧
    ((∃ msg, generateFootprintFile
        { parameters := none, tracksF := none, tracksB := none, tracksIn := none,
          vias := [], pads := [], silk := [], edgeCuts := [] } = Except.error msg) ∧
      writeFootprint
        { parameters := none, tracksF := none, tracksB := none, tracksIn := none,
          vias := [], pads := [], silk := [], edgeCuts := [] } = none) :=
  ⟨rfl, missing_structural_field_fails
    { parameters := none, tracksF := none, tracksB := none, tracksIn := none,
      vias := [], pads := [], silk := [], edgeCuts := [] } (Or.inl rfl)⟩

/-- C10: every dual-layer generator produces exactly two pads — one on
layer f at the front path's outer (non-via) endpoint (the final point for
the circular/elliptical/star paths, the first point for the
rectangular/square paths), and one on layer b at the X-mirror of that same
point — both trackWidth wide and high, plus exactly one via at the design's
electrical center. -/
theorem dual_layer_two_pads_one_via :
    (∀ cx cy r0 : ℚ, ∀ t : ℕ, ∀ s tw : ℚ,
      ((circGenerateCoilJson cx cy r0 t s tw).2).pads.map (fun p => p.layer) =
          [Layer.front, Layer.back] ∧
      ((circGenerateCoilJson cx cy r0 t s tw).2).pads.map (fun p => some p.pos) =
          [((circGenerateCoilJson cx cy r0 t s tw).2).frontPts.getLast?,
           (((circGenerateCoilJson cx cy r0 t s tw).2).frontPts.getLast?).map mirrorX] ∧
      ((circGenerateCoilJson cx cy r0 t s tw).2).pads.map (fun p => (p.width, p.height)) =
          [(tw, tw), (tw, tw)] ∧
      ((circGenerateCoilJson cx cy r0 t s tw).2).vias = [((cx : ℝ), (cy : ℝ))]) ∧
    (∀ sx sy w0 h0 : ℚ, ∀ t : ℕ, ∀ s tw : ℚ,
      ((rectGenerateCoilJson sx sy w0 h0 t s tw).2).pads.map (fun p => p.layer) =
          [Layer.front, Layer.back] ∧
      ((rectGenerateCoilJson sx sy w0 h0 t s tw).2).pads.map (fun p => some p.pos) =
          [((rectGenerateCoilJson sx sy w0 h0 t s tw).2).frontPts.head?,
           (((rectGenerateCoilJson sx sy w0 h0 t s tw).2).frontPts.head?).map mirrorX] ∧
      ((rectGenerateCoilJson sx sy w0 h0 t s tw).2).pads.map (fun p => (p.width, p.height)) =
          [(tw, tw), (tw, tw)] ∧
      ((rectGenerateCoilJson sx sy w0 h0 t s tw).2).vias = [(sx + w0 / 2, sy + h0 / 2)]) ∧
    (∀ sx sy side : ℚ, ∀ t : ℕ, ∀ s tw : ℚ,
      ((squareGenerateCoilJson sx sy side t s tw).2).pads.map (fun p => p.layer) =
          [Layer.front, Layer.back] ∧
      ((squareGenerateCoilJson sx sy side t s tw).2).pads.map (fun p => some p.pos) =
          [((squareGenerateCoilJson sx sy side t s tw).2).frontPts.head?,
           (((squareGenerateCoilJson sx sy side t s tw).2).frontPts.head?).map mirrorX] ∧
      ((squareGenerateCoilJson sx sy side t s tw).2).pads.map (fun p => (p.width, p.height)) =
          [(tw, tw), (tw, tw)] ∧
      ((squareGenerateCoilJson sx sy side t s tw).2).vias =
          [(sx + side / 2, sy + side / 2)]) ∧
    (∀ cx cy r0 : ℚ, ∀ t : ℕ, ∀ s tw : ℚ, ∀ ppt : ℕ, ∀ ir : ℚ,
      ((starGenerateCoilJson cx cy r0 t s tw ppt ir).2).pads.map (fun p => p.layer) =
          [Layer.front, Layer.back] ∧
      ((starGenerateCoilJson cx cy r0 t s tw ppt ir).2).pads.map (fun p => some p.pos) =
          [((starGenerateCoilJson cx cy r0 t s tw ppt ir).2).frontPts.getLast?,
           (((starGenerateCoilJson cx cy r0 t s tw ppt ir).2).frontPts.getLast?).map mirrorX] ∧
      ((starGenerateCoilJson cx cy r0 t s tw ppt ir).2).pads.map
          (fun p => (p.width, p.height)) = [(tw, tw), (tw, tw)] ∧
      ((starGenerateCoilJson cx cy r0 t s tw ppt ir).2).vias = [((cx : ℝ), (cy : ℝ))]) ∧
    (∀ cx cy rx0 ry0 : ℚ, ∀ t : ℕ, ∀ s tw : ℚ,
      ((ellipseGenerateCoilJson cx cy rx0 ry0 t s tw).2).pads.map (fun p => p.layer) =
          [Layer.front, Layer.back] ∧
      ((ellipseGenerateCoilJson cx cy rx0 ry0 t s tw).2).pads.map (fun p => some p.pos) =
          [((ellipseGenerateCoilJson cx cy rx0 ry0 t s tw).2).frontPts.getLast?,
           (((ellipseGenerateCoilJson cx cy rx0 ry0 t s tw).2).frontPts.getLast?).map mirrorX] ∧
      ((ellipseGenerateCoilJson cx cy rx0 ry0 t s tw).2).pads.map
          (fun p => (p.width, p.height)) = [(tw, tw), (tw, tw)] ∧
      ((ellipseGenerateCoilJson cx cy rx0 ry0 t s tw).2).vias = [((cx : ℝ), (cy : ℝ))]) := by
  refine ⟨?_, ?_, ?_, ?_, ?_⟩
  · intro cx cy r0 t s tw
    refine ⟨by simp only [circGenerateCoilJson, List.map_cons, List.map_nil], ?_,
      by simp only [circGenerateCoilJson, List.map_cons, List.map_nil],
      by simp only [circGenerateCoilJson]⟩
    simp only [circGenerateCoilJson, List.map_cons, List.map_nil]
    rw [← List.getLast?_eq_getLast, ← List.head?_eq_head, backPoints_head?]
  · intro sx sy w0 h0 t s tw
    refine ⟨by simp only [rectGenerateCoilJson, List.map_cons, List.map_nil], ?_,
      by simp only [rectGenerateCoilJson, List.map_cons, List.map_nil],
      by simp only [rectGenerateCoilJson]⟩
    simp only [rectGenerateCoilJson, List.map_cons, List.map_nil]
    rw [← List.head?_eq_head, ← List.getLast?_eq_getLast, backPoints_getLast?]
  · intro sx sy side t s tw
    refine ⟨by simp only [squareGenerateCoilJson, List.map_cons, List.map_nil], ?_,
      by simp only [squareGenerateCoilJson, List.map_cons, List.map_nil],
      by simp only [squareGenerateCoilJson]⟩
    simp only [squareGenerateCoilJson, List.map_cons, List.map_nil]
    rw [← List.head?_eq_head, ← List.getLast?_eq_getLast, backPoints_getLast?]
  · intro cx cy r0 t s tw ppt ir
    refine ⟨by simp only [starGenerateCoilJson, List.map_cons, List.map_nil], ?_,
      by simp only [starGenerateCoilJson, List.map_cons, List.map_nil],
      by simp only [starGenerateCoilJson]⟩
    simp only [starGenerateCoilJson, List.map_cons, List.map_nil]
    rw [← List.getLast?_eq_getLast, ← List.head?_eq_head, backPoints_head?]
  · intro cx cy rx0 ry0 t s tw
    refine ⟨by simp only [ellipseGenerateCoilJson, List.map_cons, List.map_nil], ?_,
      by simp only [ellipseGenerateCoilJson, List.map_cons, List.map_nil],
      by simp only [ellipseGenerateCoilJson]⟩
    simp only [ellipseGenerateCoilJson, List.map_cons, List.map_nil]
    rw [← List.getLast?_eq_getLast, ← List.head?_eq_head, backPoints_head?]
